import Mathlib

/-
Verification of the Euclid TAP client core (astroquery/esa/euclid/core.py):
shallow embedding of the session coordinator, the transport-error classifier,
the archive-normalization pipeline, the cone-search query builders and the
product/cutout request validation, together with theorems settling the frozen
behavioural claims.
-/

set_option linter.unusedVariables false

namespace EuclidSpec

/-! Error classifier (core.py, `EuclidClass.__handle_http_error`) -/

/-- Boolean substring containment on strings: the semantics of the Python
`in` operator applied to the stringified status in `__handle_http_error`
(core.py lines 724-742). -/
def substrB (needle hay : String) : Bool :=
  (List.range (hay.data.length + 1)).any fun i => needle.data.isPrefixOf (hay.data.drop i)

/-- Shallow embedding of `EuclidClass.__handle_http_error` (core.py lines
710-747).  `code` models the optional `error.code` attribute, `responseStatus`
models the optional `error.response.status_code` attribute (stringified, and
overriding `code` when both are present, as the second `if hasattr` wins), and
`errStr` models `str(error)`, used when no truthy status is available.  Every
branch of the Python function assigns a message and the final line returns it;
the `Option` return type records that a Python function could instead fall
through and return `None`, which this one never does. -/
def handle_http_error (code responseStatus : Option String) (errStr : String) : Option String :=
  let status_code :=
    match responseStatus, code with
    | some r, _ => if r = "" then errStr else r
    | none, some c => if c = "" then errStr else c
    | none, none => errStr
  some (
    if substrB "400" status_code then "Server unable to fulfill a bad request"
    else if substrB "401" status_code then "Session expired/Unauthorized access"
    else if substrB "404" status_code then
      "Address not found. If you are requesting a product, please check you are logged in"
    else if substrB "405" status_code then "Method call is not allowed"
    else if substrB "407" status_code then "Using a proxy with an authentication required"
    else if substrB "413" status_code then "Request entity too large"
    else if substrB "414" status_code then "Request URI too long"
    else if substrB "501" status_code then "Method not implemented"
    else if substrB "503" status_code then "Service is not available"
    else if substrB "500" status_code then "Internal server error"
    else "Http error detected: " ++ errStr)

/-- The `except HTTPError` handler of `EuclidClass.launch_job` (core.py lines
140-145): the message computed by `__handle_http_error` selects between the
`message is None` fallback log line and the classified log line. -/
def launch_job_error_log (query : String) (code responseStatus : Option String)
    (errStr : String) : String :=
  match handle_http_error code responseStatus errStr with
  | none => "Query failed: " ++ query ++ ", " ++ errStr
  | some message => "Query failed: " ++ query ++ ": \n " ++ message

/-! Session coordinator (core.py, `EuclidClass.login` / `logout`) -/

/-- Authentication state of the three endpoint sessions owned by the client:
the TAP (catalog) session of the `EuclidClass` itself, the data session
(`__eucliddata`) and the cutout session (`__euclidcutout`). -/
structure SessionState where
  tapAuth : Bool
  dataAuth : Bool
  cutoutAuth : Bool
deriving DecidableEq, Repr

/-- Session actions performed by `EuclidClass.login`, in execution order. -/
inductive LoginEvent where
  | tapLogin
  | dataLogin
  | cutoutLogin
  | tapLogout
deriving DecidableEq, Repr, BEq

/-- Shallow embedding of `EuclidClass.login` (core.py lines 579-617).  The
three booleans state whether the TAP (catalog), data and cutout endpoint
logins would succeed (`false` meaning the endpoint raises `HTTPError`).
Catalog login failure returns at once without touching the siblings; a
failure of either sibling login lands in the single `except` block that logs
out the TAP session only.  Returns the final session state, the trace of
performed session actions, and whether an exception propagates to the caller
(the Python code catches every `HTTPError` and only logs, so this component
is always `false`). -/
def login (s : SessionState) (tapOk dataOk cutoutOk : Bool) :
    SessionState × List LoginEvent × Bool :=
  if tapOk = false then (s, [], false)
  else
    let s1 := { s with tapAuth := true }
    if dataOk = false then
      ({ s1 with tapAuth := false }, [LoginEvent.tapLogin, LoginEvent.tapLogout], false)
    else
      let s2 := { s1 with dataAuth := true }
      if cutoutOk = false then
        ({ s2 with tapAuth := false },
         [LoginEvent.tapLogin, LoginEvent.dataLogin, LoginEvent.tapLogout], false)
      else
        ({ s2 with cutoutAuth := true },
         [LoginEvent.tapLogin, LoginEvent.dataLogin, LoginEvent.cutoutLogin], false)

/-! Archive normalizer (core.py, `__extract_file` / `__check_file_number`) -/

/-- The two-byte gzip magic test `EuclidClass.is_gz_file` (core.py lines
749-752): true iff the first two bytes of the file are 0x1f 0x8b. -/
def is_gz_file (firstBytes : List Nat) : Bool :=
  firstBytes.take 2 == [0x1f, 0x8b]

/-- Classification of a downloaded payload by the sniffing chain of
`EuclidClass.__extract_file` (core.py lines 817-827): `tarfile.is_tarfile`
first, then `zipfile.is_zipfile`, then `EuclidClass.is_gz_file`; everything
else is a plain file.  Archive kinds carry the top-level member names that the
stdlib extractor writes into the output directory. -/
inductive PayloadKind where
  | tar (entries : List String)
  | zip (entries : List String)
  | gz
  | plain
deriving DecidableEq, Repr

/-- Local filesystem path `dir + os.sep + name`. -/
def mkPath (dir name : String) : String := dir ++ "/" ++ name

/-- Extraction of archive members into a directory: a member whose name is
already present overwrites that file in place, so the listing afterwards is
the union of names. -/
def extractInto (dirListing entries : List String) : List String :=
  dirListing ++ entries.filter (fun e => !(dirListing.contains e))

/-- Shallow embedding of `EuclidClass.__extract_file` (core.py lines 817-827),
operating on the name listing of the output directory (which contains the
downloaded payload).  Returns the directory listing after any extraction
together with the `files` list the Python code appends to: tar and zip
payloads are extracted and append nothing, a gzip-magic payload appends
nothing and is left alone, and a plain payload appends its own full path. -/
def extract_file (kind : PayloadKind) (output_dir payload_name : String)
    (dirListing : List String) : List String × List String :=
  match kind with
  | PayloadKind.tar entries => (extractInto dirListing entries, [])
  | PayloadKind.zip entries => (extractInto dirListing entries, [])
  | PayloadKind.gz => (dirListing, [])
  | PayloadKind.plain => (dirListing, [mkPath output_dir payload_name])

/-- Shallow embedding of `EuclidClass.__check_file_number` (core.py lines
801-815): if `os.listdir(output_dir)` holds exactly one entry, rename the
payload to the canonical output name and append that path; otherwise walk the
directory and append every file whose name differs from the canonical output
name. -/
def check_file_number (output_dir output_file_name : String)
    (dirListing : List String) (files : List String) : List String :=
  if dirListing.length == 1 then
    files ++ [mkPath output_dir output_file_name]
  else
    files ++ (dirListing.filter (fun f => f != output_file_name)).map (mkPath output_dir)

/-- The download post-processing pipeline shared by
`get_observation_products`, `get_product`, `get_cutout` and `get_spectrum`
(for example core.py lines 895-903): run `__extract_file`; if it produced a
non-empty `files` list return it, otherwise run `__check_file_number` with the
basename of the payload as the canonical output file name. -/
def normalize (kind : PayloadKind) (output_dir payload_name : String)
    (dirListing : List String) : List String :=
  let res := extract_file kind output_dir payload_name dirListing
  if res.2.isEmpty then check_file_number output_dir payload_name res.1 res.2
  else res.2

/-! Cone-search query construction (core.py, `cone_search` / `__cone_search`) -/

/-- The Python value bound to the `columns` parameter of
`EuclidClass.cone_search` and `EuclidClass.__cone_search`: either the default
empty tuple `()` or a caller-supplied list of column names. -/
inductive PyColumns where
  | defaultTuple
  | pyList (cols : List String)
deriving DecidableEq, Repr

/-- Python `str()` of a `columns` value, as interpolated by `str.format` when
the raw value reaches the template. -/
def pyColumnsStr : PyColumns → String
  | PyColumns.defaultTuple => "()"
  | PyColumns.pyList cols =>
      "[" ++ String.intercalate ", " (cols.map (fun c => "\x27" ++ c ++ "\x27")) ++ "]"

/-- Python truthiness of the `columns` value (`if columns:`). -/
def pyColumnsTruthy : PyColumns → Bool
  | PyColumns.defaultTuple => false
  | PyColumns.pyList cols => !cols.isEmpty

/-- Python comma-join of the stringified columns (`str.join` with a comma separator). -/
def pyColumnsJoin : PyColumns → String
  | PyColumns.defaultTuple => ""
  | PyColumns.pyList cols => String.intercalate "," cols

/-- The triple-quoted ADQL template shared verbatim by `EuclidClass.cone_search`
(core.py lines 541-561) and `EuclidClass.__cone_search` (core.py lines
386-406), with the `str.format` slots substituted. -/
def cone_search_query_template (row_limit columns ra_column dec_column ra dec radius
    table_name : String) : String :=
  "\n                SELECT\n                  " ++ row_limit
    ++ "\n                  " ++ columns
    ++ ",\n                  DISTANCE(\n                    POINT(\x27ICRS\x27, "
    ++ ra_column ++ ", " ++ dec_column
    ++ "),\n                    POINT(\x27ICRS\x27, " ++ ra ++ ", " ++ dec
    ++ ")\n                  ) AS dist\n                FROM\n                  "
    ++ table_name
    ++ "\n                WHERE\n                  1 = CONTAINS(\n                    POINT(\x27ICRS\x27, "
    ++ ra_column ++ ", " ++ dec_column
    ++ "),\n                    CIRCLE(\x27ICRS\x27, " ++ ra ++ ", " ++ dec ++ ", " ++ radius
    ++ ")\n                  )\n                ORDER BY\n                  dist ASC\n                "

/-- The `row_limit` slot:
`"TOP {0}".format(self.ROW_LIMIT) if self.ROW_LIMIT > 0 else ""`
(core.py lines 404 and 559). -/
def row_limit_slot (row_limit : Int) : String :=
  if row_limit > 0 then "TOP " ++ toString row_limit else ""

/-- Shallow embedding of the query constructed by `EuclidClass.cone_search`
(core.py lines 522-577).  The block that would comma-join a truthy column list
and default it to `"*"` otherwise is commented out in the source (lines
534-539 form a bare string literal, a no-op statement), so `str.format`
interpolates the raw Python value of `columns` into the SELECT list.  `ra`,
`dec` and `radius` arrive as the Python string forms of the degree values
resolved by the external coordinate and unit collaborators. -/
def cone_search_query (row_limit : Int) (columns : PyColumns)
    (ra_column dec_column ra dec radius table_name : String) : String :=
  cone_search_query_template (row_limit_slot row_limit) (pyColumnsStr columns)
    ra_column dec_column ra dec radius table_name

/-- Shallow embedding of the query constructed by the private
`EuclidClass.__cone_search` (core.py lines 374-414, used by `query_object`):
there the column list is normalized before formatting, a truthy `columns`
being comma-joined and anything else replaced by `"*"` (lines 381-384). -/
def private_cone_search_query (row_limit : Int) (columns : PyColumns)
    (ra_column dec_column ra dec radius table_name : String) : String :=
  cone_search_query_template (row_limit_slot row_limit)
    (if pyColumnsTruthy columns then pyColumnsJoin columns else "*")
    ra_column dec_column ra dec radius table_name

/-! Product listing (core.py, `get_product_list` / `__get_tile_catalogue_list`) -/

/-- Error-message constants of `EuclidClass` (core.py lines 29-34). -/
def ERROR_MSG_REQUESTED_OBSERVATION_ID : String :=
  "Missing required argument: \x27observation_id\x27"

def ERROR_MSG_REQUESTED_TILE_ID : String :=
  "Missing required argument: \x27tile_id\x27"

def ERROR_MSG_REQUESTED_OBSERVATION_ID_AND_TILE_ID : String :=
  "Incompatible: \x27observation_id\x27 and \x27tile_id\x27. Use only one."

def ERROR_MSG_REQUESTED_PRODUCT_TYPE : String :=
  "Missing required argument: \x27product_type\x27"

def ERROR_MSG_REQUESTED_GENERIC : String :=
  "Missing required argument"

def ERROR_MSG_REQUESTED_RADIUS : String :=
  "Radius cannot be greater than 30 arcminutes"

/-- The product-family configuration lists consumed from the `conf` module by
`get_product_list` and `__get_tile_catalogue_list`; the `conf` module is not
part of the sources under review, so the lists are parameters. -/
structure EuclidConf where
  OBSERVATION_STACK_PRODUCTS : List String
  BASIC_DOWNLOAD_DATA_PRODUCTS : List String
  MER_SEGMENTATION_MAP_PRODUCTS : List String
  RAW_FRAME_PRODUCTS : List String
  CALIBRATED_FRAME_PRODUCTS : List String
  FRAME_CATALOG_PRODUCTS : List String
  COMBINED_SPECTRA_PRODUCTS : List String
  SIR_SCIENCE_FRAME_PRODUCTS : List String
  MOSAIC_PRODUCTS : List String

/-- Query of `__get_tile_catalogue_list` for mosaic products (core.py lines
967-975). -/
def mosaic_query (tile_index product_type : String) : String :=
  "SELECT DISTINCT mosaic_product.file_name, mosaic_product.mosaic_product_oid, "
    ++ "mosaic_product.tile_index, mosaic_product.instrument_name, mosaic_product.filter_name, "
    ++ "mosaic_product.category, mosaic_product.second_type, mosaic_product.ra, mosaic_product.dec, "
    ++ "mosaic_product.release_name, "
    ++ "mosaic_product.technique FROM sedm.mosaic_product WHERE mosaic_product.tile_index = \x27"
    ++ tile_index ++ "\x27 AND "
    ++ "mosaic_product.product_type = \x27" ++ product_type ++ "\x27;"

/-- Query of `__get_tile_catalogue_list` for basic-download products (core.py
lines 977-986). -/
def basic_download_tile_query (tile_index product_type : String) : String :=
  "SELECT basic_download_data.basic_download_data_oid, basic_download_data.product_type, "
    ++ "basic_download_data.product_id, CAST(basic_download_data.observation_id_list as text) AS "
    ++ "observation_id_list, CAST(basic_download_data.tile_index_list as text) AS tile_index_list, "
    ++ "CAST(basic_download_data.patch_id_list as text) AS patch_id_list, "
    ++ "CAST(basic_download_data.filter_name as text) AS filter_name, basic_download_data.release_name FROM "
    ++ "sedm.basic_download_data WHERE \x27" ++ tile_index
    ++ "\x27=ANY(tile_index_list) AND product_type = \x27" ++ product_type ++ "\x27 "
    ++ "ORDER BY observation_id_list ASC;"

/-- Query of `__get_tile_catalogue_list` for combined-spectra products
(core.py lines 988-994). -/
def combined_spectra_tile_query (tile_index product_type : String) : String :=
  "SELECT combined_spectra.combined_spectra_oid, combined_spectra.lambda_range, "
    ++ "combined_spectra.tile_index, combined_spectra.stc_s, combined_spectra.product_type, "
    ++ "combined_spectra.product_id, combined_spectra.observation_id_list FROM sedm.combined_spectra "
    ++ "WHERE combined_spectra.tile_index = \x27" ++ tile_index
    ++ "\x27 AND combined_spectra.product_type = \x27" ++ product_type ++ "\x27;"

/-- Query of `__get_tile_catalogue_list` for segmentation-map products
(core.py lines 996-1004). -/
def mer_segmentation_map_tile_query (tile_index product_type : String) : String :=
  "SELECT mer_segmentation_map.file_name, mer_segmentation_map.segmentation_map_oid, "
    ++ "mer_segmentation_map.ra, mer_segmentation_map.dec, mer_segmentation_map.stc_s, "
    ++ "mer_segmentation_map.tile_index, "
    ++ "CAST(mer_segmentation_map.observation_id_list as TEXT) AS observation_id_list, "
    ++ "mer_segmentation_map.product_type, mer_segmentation_map.product_id FROM sedm.mer_segmentation_map "
    ++ "WHERE mer_segmentation_map.tile_index = \x27" ++ tile_index ++ "\x27 AND "
    ++ "mer_segmentation_map.product_type = \x27" ++ product_type ++ "\x27;"

/-- The sequential query selection of `__get_tile_catalogue_list` (core.py
lines 965-1004): `query` starts as `None` and each matching `if` overwrites
it, so a later list wins when a product type occurs in several lists. -/
def tile_query_chain (conf : EuclidConf) (tile_index product_type : String) : Option String :=
  let query : Option String := none
  let query := if product_type ∈ conf.MOSAIC_PRODUCTS then
    some (mosaic_query tile_index product_type) else query
  let query := if product_type ∈ conf.BASIC_DOWNLOAD_DATA_PRODUCTS then
    some (basic_download_tile_query tile_index product_type) else query
  let query := if product_type ∈ conf.COMBINED_SPECTRA_PRODUCTS then
    some (combined_spectra_tile_query tile_index product_type) else query
  let query := if product_type ∈ conf.MER_SEGMENTATION_MAP_PRODUCTS then
    some (mer_segmentation_map_tile_query tile_index product_type) else query
  query

/-- Shallow embedding of `EuclidClass.__get_tile_catalogue_list` (core.py
lines 905-1011) after its not-`None` re-checks (its only caller passes both
arguments non-`None`): the built query or the invalid-product-type error,
paired with the number of `launch_job` network calls performed.  Job execution
and result parsing belong to the external Job Executor collaborator. -/
def get_tile_catalogue_list (conf : EuclidConf) (tile_index product_type : String) :
    Except String String × Nat :=
  match tile_query_chain conf tile_index product_type with
  | none => (Except.error ("Invalid product type " ++ product_type ++ "."), 0)
  | some q => (Except.ok q, 1)

/-- Query of `get_product_list` for observation-stack products (core.py lines
1115-1123; note the double space after WHERE present in the source). -/
def observation_stack_query (observation_id product_type : String) : String :=
  "SELECT observation_stack.file_name, observation_stack.observation_stack_oid, "
    ++ "observation_stack.observation_id, observation_stack.ra, observation_stack.dec, "
    ++ "observation_stack.instrument_name, observation_stack.filter_name, "
    ++ "observation_stack.release_name, observation_stack.category, observation_stack.second_type, "
    ++ "observation_stack.technique, observation_stack.product_type, observation_stack.start_time, "
    ++ "observation_stack.duration FROM sedm.observation_stack WHERE "
    ++ " observation_stack.observation_id = \x27" ++ observation_id
    ++ "\x27 AND observation_stack.product_type = \x27" ++ product_type ++ "\x27;"

/-- Query of `get_product_list` for basic-download products (core.py lines
1125-1134). -/
def basic_download_obs_query (observation_id product_type : String) : String :=
  "SELECT basic_download_data.basic_download_data_oid, basic_download_data.product_type, "
    ++ "basic_download_data.product_id, CAST(basic_download_data.observation_id_list as text) AS "
    ++ "observation_id_list, CAST(basic_download_data.tile_index_list as text) AS tile_index_list, "
    ++ "CAST(basic_download_data.patch_id_list as text) AS patch_id_list, "
    ++ "CAST(basic_download_data.filter_name as text) AS filter_name, basic_download_data.release_name FROM "
    ++ "sedm.basic_download_data WHERE \x27" ++ observation_id
    ++ "\x27=ANY(observation_id_list) AND product_type = \x27" ++ product_type ++ "\x27 "
    ++ "ORDER BY observation_id_list ASC;"

/-- Query of `get_product_list` for segmentation-map products (core.py lines
1136-1145). -/
def mer_segmentation_map_obs_query (observation_id product_type : String) : String :=
  "SELECT mer_segmentation_map.file_name, mer_segmentation_map.segmentation_map_oid, "
    ++ "mer_segmentation_map.ra, mer_segmentation_map.dec, mer_segmentation_map.stc_s, "
    ++ "mer_segmentation_map.tile_index, "
    ++ "mer_segmentation_map.product_type, mer_segmentation_map.product_id FROM sedm.mer_segmentation_map "
    ++ "WHERE ( observation_id_list = \x27" ++ observation_id
    ++ "\x27 OR observation_id_list like \x27" ++ observation_id
    ++ ",%\x27 OR observation_id_list "
    ++ "like \x27%," ++ observation_id
    ++ "\x27 OR CAST(observation_id_list as TEXT) like \x27%," ++ observation_id ++ ",%\x27 ) AND "
    ++ "mer_segmentation_map.product_type = \x27" ++ product_type ++ "\x27;"

/-- Query of `get_product_list` for raw-frame products (core.py lines
1147-1160); the instrument is NISP for `dpdNispRawFrame` and VIS otherwise. -/
def raw_frame_query (observation_id product_type : String) : String :=
  let instrument_name := if product_type = "dpdNispRawFrame" then "NISP" else "VIS"
  "SELECT raw_frame.file_name, raw_frame.rawframe_oid, raw_frame.observation_id, "
    ++ "raw_frame.instrument_name, raw_frame.data_set_release, raw_frame.filter_name, "
    ++ "raw_frame.observation_mode, raw_frame.grism_wheel_pos, raw_frame.cal_block_id, "
    ++ "raw_frame.cal_block_variant, raw_frame.ra, raw_frame.dec, raw_frame.obs_time_utc, "
    ++ "raw_frame.exposure_time FROM sedm.raw_frame WHERE raw_frame.observation_id = \x27"
    ++ observation_id ++ "\x27 "
    ++ "AND raw_frame.instrument_name = \x27" ++ instrument_name ++ "\x27;"

/-- Query of `get_product_list` for calibrated-frame products (core.py lines
1162-1169). -/
def calibrated_frame_query (observation_id product_type : String) : String :=
  "SELECT calibrated_frame.file_name, calibrated_frame.calibrated_frame_oid, "
    ++ "calibrated_frame.observation_id, calibrated_frame.instrument_name, calibrated_frame.filter_name, "
    ++ "calibrated_frame.ra, calibrated_frame.dec, calibrated_frame.stc_s, calibrated_frame.start_time, "
    ++ "calibrated_frame.end_time, calibrated_frame.duration "
    ++ "FROM sedm.calibrated_frame WHERE calibrated_frame.observation_id = \x27" ++ observation_id
    ++ "\x27 AND "
    ++ "calibrated_frame.product_type = \x27" ++ product_type ++ "\x27;"

/-- Query of `get_product_list` for frame-catalog products (core.py lines
1171-1178). -/
def frame_catalog_query (observation_id product_type : String) : String :=
  "SELECT frame_catalog.file_name, frame_catalog.catalog_oid, frame_catalog.observation_id, "
    ++ "frame_catalog.instrument_name, frame_catalog.filter_name, frame_catalog.ra, frame_catalog.dec, "
    ++ "frame_catalog.datarange_start_time, frame_catalog.datarange_end_time, "
    ++ "frame_catalog.product_type, frame_catalog.product_id FROM sedm.frame_catalog "
    ++ "WHERE frame_catalog.observation_id = \x27" ++ observation_id
    ++ "\x27 AND frame_catalog.product_type = \x27" ++ product_type ++ "\x27;"

/-- Query of `get_product_list` for combined-spectra products (core.py lines
1180-1188). -/
def combined_spectra_obs_query (observation_id product_type : String) : String :=
  "SELECT combined_spectra.combined_spectra_oid, combined_spectra.lambda_range, "
    ++ "combined_spectra.tile_index, combined_spectra.stc_s, combined_spectra.product_type, "
    ++ "combined_spectra.product_id FROM sedm.combined_spectra "
    ++ "WHERE ( observation_id_list = \x27" ++ observation_id
    ++ "\x27 OR observation_id_list like \x27" ++ observation_id ++ " %\x27 "
    ++ "OR observation_id_list "
    ++ "like \x27% " ++ observation_id
    ++ "\x27 OR observation_id_list like \x27% " ++ observation_id ++ " %\x27 ) AND "
    ++ "combined_spectra.product_type = \x27" ++ product_type ++ "\x27;"

/-- Query of `get_product_list` for SIR science-frame products (core.py lines
1190-1198); the instrument is always NISP. -/
def sir_science_frame_query (observation_id product_type : String) : String :=
  let instrument_name := "NISP"
  "SELECT sir_science_frame.file_name, sir_science_frame.science_frame_oid, "
    ++ "sir_science_frame.observation_id, sir_science_frame.instrument_name, sir_science_frame.stc_s, "
    ++ "sir_science_frame.prod_sdc FROM sedm.sir_science_frame "
    ++ "WHERE sir_science_frame.observation_id = \x27" ++ observation_id
    ++ "\x27 AND sir_science_frame.instrument_name = \x27" ++ instrument_name ++ "\x27;"

/-- The sequential query selection of `get_product_list` for the
observation-id branch (core.py lines 1114-1198): `query` starts as `None` and
each matching `if` overwrites it. -/
def observation_query_chain (conf : EuclidConf) (observation_id product_type : String) :
    Option String :=
  let query : Option String := none
  let query := if product_type ∈ conf.OBSERVATION_STACK_PRODUCTS then
    some (observation_stack_query observation_id product_type) else query
  let query := if product_type ∈ conf.BASIC_DOWNLOAD_DATA_PRODUCTS then
    some (basic_download_obs_query observation_id product_type) else query
  let query := if product_type ∈ conf.MER_SEGMENTATION_MAP_PRODUCTS then
    some (mer_segmentation_map_obs_query observation_id product_type) else query
  let query := if product_type ∈ conf.RAW_FRAME_PRODUCTS then
    some (raw_frame_query observation_id product_type) else query
  let query := if product_type ∈ conf.CALIBRATED_FRAME_PRODUCTS then
    some (calibrated_frame_query observation_id product_type) else query
  let query := if product_type ∈ conf.FRAME_CATALOG_PRODUCTS then
    some (frame_catalog_query observation_id product_type) else query
  let query := if product_type ∈ conf.COMBINED_SPECTRA_PRODUCTS then
    some (combined_spectra_obs_query observation_id product_type) else query
  let query := if product_type ∈ conf.SIR_SCIENCE_FRAME_PRODUCTS then
    some (sir_science_frame_query observation_id product_type) else query
  query

/-- Shallow embedding of `EuclidClass.get_product_list` (core.py lines
1013-1205): argument validation in source order (`product_type` missing, both
identifiers given, neither identifier given), then delegation to the tile
branch or the observation-id query selection.  The result pairs the outcome
(query text, or the `ValueError` message raised) with the number of
`launch_job` network calls performed; every raised error happens before any
network call, hence counts zero. -/
def get_product_list (conf : EuclidConf)
    (observation_id tile_index product_type : Option String) :
    Except String String × Nat :=
  match product_type with
  | none => (Except.error ERROR_MSG_REQUESTED_PRODUCT_TYPE, 0)
  | some pt =>
    match observation_id, tile_index with
    | some _, some _ => (Except.error ERROR_MSG_REQUESTED_OBSERVATION_ID_AND_TILE_ID, 0)
    | none, none =>
        (Except.error (ERROR_MSG_REQUESTED_OBSERVATION_ID ++ "; " ++ ERROR_MSG_REQUESTED_TILE_ID), 0)
    | none, some t => get_tile_catalogue_list conf t pt
    | some o, none =>
      match observation_query_chain conf o pt with
      | none => (Except.error ("Invalid product type " ++ pt ++ "."), 0)
      | some q => (Except.ok q, 1)

/-- A product type recognized by the observation-id branch of
`get_product_list`: member of at least one of the consulted `conf` lists. -/
def obsProductKnown (conf : EuclidConf) (product_type : String) : Prop :=
  product_type ∈ conf.OBSERVATION_STACK_PRODUCTS
    ∨ product_type ∈ conf.BASIC_DOWNLOAD_DATA_PRODUCTS
    ∨ product_type ∈ conf.MER_SEGMENTATION_MAP_PRODUCTS
    ∨ product_type ∈ conf.RAW_FRAME_PRODUCTS
    ∨ product_type ∈ conf.CALIBRATED_FRAME_PRODUCTS
    ∨ product_type ∈ conf.FRAME_CATALOG_PRODUCTS
    ∨ product_type ∈ conf.COMBINED_SPECTRA_PRODUCTS
    ∨ product_type ∈ conf.SIR_SCIENCE_FRAME_PRODUCTS

/-- A product type recognized by `__get_tile_catalogue_list`. -/
def tileProductKnown (conf : EuclidConf) (product_type : String) : Prop :=
  product_type ∈ conf.MOSAIC_PRODUCTS
    ∨ product_type ∈ conf.BASIC_DOWNLOAD_DATA_PRODUCTS
    ∨ product_type ∈ conf.COMBINED_SPECTRA_PRODUCTS
    ∨ product_type ∈ conf.MER_SEGMENTATION_MAP_PRODUCTS

/-! Cutout retrieval (core.py, `get_cutout`) -/

/-- Shallow embedding of the validation and request-building prefix of
`EuclidClass.get_cutout` (core.py lines 1271-1338).  `radius_deg` is the
degree value the `Angle` conversion yields from the mandatory `radius`
argument; `ra`, `dec` and `radius_str` are the Python string forms of the
degree values interpolated into the POS parameter.  The result pairs the
outcome (the parameter dictionary passed to `load_data`, or the `ValueError`
message raised) with the number of `load_data` network calls performed; both
validation errors are raised before any network call. -/
def get_cutout (file_path instrument id coordinate : Option String)
    (radius_deg : Option ℚ) (ra dec radius_str : String) :
    Except String (List (String × String)) × Nat :=
  match file_path, instrument, id, coordinate, radius_deg with
  | some fp, some ins, some i, some _, some r =>
    if r > 1 / 2 then (Except.error ERROR_MSG_REQUESTED_RADIUS, 0)
    else
      let pos := "CIRCLE," ++ ra ++ "," ++ dec ++ "," ++ radius_str
      (Except.ok [("TAPCLIENT", "ASTROQUERY"), ("FILEPATH", fp), ("COLLECTION", ins),
                  ("OBSID", i), ("POS", pos)], 1)
  | _, _, _, _, _ => (Except.error ERROR_MSG_REQUESTED_GENERIC, 0)

/-- A concrete configuration populated with product types drawn from the
`get_product_list` documentation, used to instantiate the validation
theorems. -/
def demoConf : EuclidConf where
  OBSERVATION_STACK_PRODUCTS := ["DpdVisStackedFrame", "DpdNirStackedFrame"]
  BASIC_DOWNLOAD_DATA_PRODUCTS := ["dpdPhzPfOutputCatalog", "dpdPhzPfOutputForL3"]
  MER_SEGMENTATION_MAP_PRODUCTS := ["DpdMerSegmentationMap"]
  RAW_FRAME_PRODUCTS := ["dpdVisRawFrame", "dpdNispRawFrame"]
  CALIBRATED_FRAME_PRODUCTS := ["DpdVisCalibratedQuadFrame", "DpdNirCalibratedFrame"]
  FRAME_CATALOG_PRODUCTS := ["DpdNirStackedFrameCatalog", "DpdVisStackedFrameCatalog"]
  COMBINED_SPECTRA_PRODUCTS := ["DpdSirCombinedSpectra"]
  SIR_SCIENCE_FRAME_PRODUCTS := ["dpdSirScienceFrame"]
  MOSAIC_PRODUCTS := ["DpdMerBksMosaic"]

/-! Helper lemmas -/

/-- Appending distinct names to a common directory yields distinct paths. -/
theorem mkPath_name_inj (dir : String) {a b : String}
    (h : mkPath dir a = mkPath dir b) : a = b := by
  have hd := congrArg String.data h
  simp only [mkPath, String.data_append, List.append_assoc] at hd
  exact String.ext (List.append_cancel_left (List.append_cancel_left hd))

/-- The observation-id query chain yields no query only for product types in
none of the consulted configuration lists. -/
theorem observation_query_chain_none (conf : EuclidConf) (o pt : String)
    (h : observation_query_chain conf o pt = none) : ¬ obsProductKnown conf pt := by
  simp only [observation_query_chain] at h
  split_ifs at h <;> simp_all [obsProductKnown]

/-- A recognized observation product type always yields a query. -/
theorem observation_query_chain_isSome (conf : EuclidConf) (o pt : String)
    (h : obsProductKnown conf pt) : ∃ q, observation_query_chain conf o pt = some q := by
  cases hq : observation_query_chain conf o pt with
  | none => exact absurd h (observation_query_chain_none conf o pt hq)
  | some q => exact ⟨q, rfl⟩

/-- The tile query chain yields no query only for product types in none of
the consulted configuration lists. -/
theorem tile_query_chain_none (conf : EuclidConf) (t pt : String)
    (h : tile_query_chain conf t pt = none) : ¬ tileProductKnown conf pt := by
  simp only [tile_query_chain] at h
  split_ifs at h <;> simp_all [tileProductKnown]

/-- A recognized tile product type always yields a query. -/
theorem tile_query_chain_isSome (conf : EuclidConf) (t pt : String)
    (h : tileProductKnown conf pt) : ∃ q, tile_query_chain conf t pt = some q := by
  cases hq : tile_query_chain conf t pt with
  | none => exact absurd h (tile_query_chain_none conf t pt hq)
  | some q => exact ⟨q, rfl⟩

/-! Claim theorems -/

/-- C1 counterexample: with the catalog and data logins succeeding and the
cutout login failing, `EuclidClass.login` logs out the catalog session but
leaves the data session authenticated and lets no exception reach the caller,
so the login neither fails with an `AuthError` nor leaves all three endpoint
sessions unauthenticated. -/
theorem euclid_login_claim_counterexample :
    login ⟨false, false, false⟩ true true false
      = (⟨false, true, false⟩,
         [LoginEvent.tapLogin, LoginEvent.dataLogin, LoginEvent.tapLogout], false)
    ∧ (login ⟨false, false, false⟩ true true false).1.dataAuth = true
    ∧ (login ⟨false, false, false⟩ true true false).2.2 = false := by
  decide

/-- C1 (amended): whenever a sibling login fails after the catalog login
succeeded, `EuclidClass.login` issues a catalog logout (rollback), catches
the error and returns normally instead of failing with an `AuthError`; all
three sessions end unauthenticated exactly when the failing sibling is the
data endpoint, while a cutout failure leaves the data session
authenticated. -/
theorem euclid_login_rollback (dataOk cutoutOk : Bool)
    (h : dataOk = false ∨ cutoutOk = false) :
    (login ⟨false, false, false⟩ true dataOk cutoutOk).1.tapAuth = false
    ∧ (login ⟨false, false, false⟩ true dataOk cutoutOk).2.1.contains LoginEvent.tapLogout = true
    ∧ (login ⟨false, false, false⟩ true dataOk cutoutOk).2.2 = false
    ∧ (dataOk = false →
        (login ⟨false, false, false⟩ true dataOk cutoutOk).1 = ⟨false, false, false⟩)
    ∧ (dataOk = true →
        (login ⟨false, false, false⟩ true dataOk cutoutOk).1.dataAuth = true) := by
  cases dataOk <;> cases cutoutOk <;> revert h <;> decide

/-- Witness for the amended C1 theorem at the catalog-ok, data-ok,
cutout-failure input. -/
theorem euclid_login_rollback_witness :
    ((true : Bool) = false ∨ (false : Bool) = false)
    ∧ (login ⟨false, false, false⟩ true true false).1.tapAuth = false
    ∧ (login ⟨false, false, false⟩ true true false).1.dataAuth = true :=
  ⟨Or.inr rfl, (euclid_login_rollback true false (Or.inr rfl)).1,
    (euclid_login_rollback true false (Or.inr rfl)).2.2.2.2 rfl⟩

/-- C2 counterexample: the classifier matches by substring containment, so a
status text with the longer digit run 5001 is classified as the fixed code
500 (InternalServerError) instead of remaining unclassified. -/
theorem euclid_http_error_5001_counterexample :
    handle_http_error (some "5001") none "HTTP 5001" = some "Internal server error"
    ∧ ("Internal server error" : String) ≠ "Http error detected: HTTP 5001" := by
  decide

/-- C2 (amended): status 500 is classified as InternalServerError, status 501
as NotImplemented (the 501 check precedes the 500 check, so it is not
misclassified), an error with no status and message timeout yields the
unknown-category message carrying that text; matching is substring
containment, so the digit run 5001 is classified as InternalServerError. -/
theorem euclid_http_error_classification :
    handle_http_error (some "500") none "server fault" = some "Internal server error"
    ∧ handle_http_error (some "501") none "server fault" = some "Method not implemented"
    ∧ handle_http_error none none "timeout" = some "Http error detected: timeout"
    ∧ handle_http_error (some "5001") none "server fault" = some "Internal server error" := by
  decide

/-- C3 counterexample: a tar holding exactly one entry is NOT renamed to the
canonical output filename: the archive itself still sits in the output
directory, so the directory count is two and the walk branch returns the
entry at its extracted name. -/
theorem euclid_normalize_single_entry_counterexample :
    normalize (PayloadKind.tar ["member.fits"]) "d" "out.tar" ["out.tar"]
      = ["d/member.fits"]
    ∧ ("d/member.fits" : String) ≠ "d/out.tar" := by
  decide

/-- C3 (amended): extracting a tar (or zip) with N distinctly-named entries,
none sharing the archive basename, into a fresh directory returns exactly N
paths for every N at least 1, and none of them equals the canonical output
path; in particular a single-entry archive is returned at its extracted name
rather than renamed, because the directory still holds the archive itself. -/
theorem euclid_normalize_tar_entries (output_dir payload_name : String)
    (entries : List String) (hne : entries ≠ []) (hnodup : entries.Nodup)
    (hpay : payload_name ∉ entries) :
    (normalize (PayloadKind.tar entries) output_dir payload_name [payload_name]).length
      = entries.length
    ∧ mkPath output_dir payload_name ∉
        normalize (PayloadKind.tar entries) output_dir payload_name [payload_name] := by
  have hmem : ∀ e ∈ entries, e ≠ payload_name := fun e he hep => hpay (hep ▸ he)
  have hfilter : entries.filter (fun e => !(([payload_name].contains e))) = entries := by
    apply List.filter_eq_self.mpr
    simp only [List.contains_cons, List.contains_nil, Bool.or_false, Bool.not_eq_true',
      beq_eq_false_iff_ne, ne_eq]
    exact hmem
  have hdir : extractInto [payload_name] entries = payload_name :: entries := by
    simp only [extractInto]
    rw [hfilter]
    rfl
  have h0 : entries.length ≠ 0 := fun hl => hne (List.length_eq_zero.mp hl)
  have hlen : ((payload_name :: entries).length == 1) = false := by
    simp only [List.length_cons, beq_eq_false_iff_ne, ne_eq]
    omega
  have hf2 : entries.filter (fun f => f != payload_name) = entries := by
    apply List.filter_eq_self.mpr
    intro a ha
    simpa using hmem a ha
  have hf3 : (payload_name :: entries).filter (fun f => f != payload_name) = entries := by
    simp [List.filter_cons, hf2]
  have hres : normalize (PayloadKind.tar entries) output_dir payload_name [payload_name]
      = entries.map (mkPath output_dir) := by
    simp only [normalize, extract_file, hdir, List.isEmpty_nil, if_true, check_file_number]
    rw [hlen]
    simp [hf3]
  refine ⟨by simp [hres], ?_⟩
  rw [hres]
  intro hmem2
  obtain ⟨e, he, heq⟩ := List.mem_map.mp hmem2
  exact hmem e he (mkPath_name_inj output_dir heq)

/-- Witness for the amended C3 theorem at a concrete two-entry tar. -/
theorem euclid_normalize_tar_entries_witness :
    (["a.fits", "b.fits"] : List String) ≠ []
    ∧ (normalize (PayloadKind.tar ["a.fits", "b.fits"]) "d" "out.tar" ["out.tar"]).length = 2
    ∧ mkPath "d" "out.tar" ∉
        normalize (PayloadKind.tar ["a.fits", "b.fits"]) "d" "out.tar" ["out.tar"] := by
  have h := euclid_normalize_tar_entries "d" "out.tar" ["a.fits", "b.fits"]
    (by decide) (by decide) (by decide)
  exact ⟨by decide, h.1, h.2⟩

/-- C4 counterexample: a tar archive that extracts to zero member files does
not yield an empty list: the output directory still holds the archive itself,
so the count-one branch fires and returns the payload path. -/
theorem euclid_normalize_empty_archive_counterexample :
    normalize (PayloadKind.tar []) "d" "out.tar" ["out.tar"] = ["d/out.tar"]
    ∧ normalize (PayloadKind.tar []) "d" "out.tar" ["out.tar"] ≠ ([] : List String) := by
  decide

/-- C4 (amended): a tar or zip payload extracting to zero member files in a
fresh output directory yields the one-element list holding the payload path
(the single-file rename branch fires because the archive itself is the only
directory entry), not an empty list; the result is still distinct from the
absent/None failure sentinel. -/
theorem euclid_normalize_empty_archive (output_dir payload_name : String) :
    normalize (PayloadKind.tar []) output_dir payload_name [payload_name]
      = [mkPath output_dir payload_name]
    ∧ normalize (PayloadKind.zip []) output_dir payload_name [payload_name]
      = [mkPath output_dir payload_name] :=
  ⟨rfl, rfl⟩

/-- C5 counterexample: a gzip-magic payload is not returned directly skipping
the directory-count step: the pipeline falls through to
`__check_file_number`, and with a second file in the output directory the
walk branch returns that other file instead of the payload path. -/
theorem euclid_normalize_gz_counterexample :
    normalize PayloadKind.gz "d" "out.fits.gz" ["out.fits.gz", "other.txt"]
      = ["d/other.txt"]
    ∧ normalize PayloadKind.gz "d" "out.fits.gz" ["out.fits.gz", "other.txt"]
      ≠ ["d/out.fits.gz"] := by
  decide

/-- C5 (amended): a gzip-magic payload that is neither tar nor zip appends
nothing in `__extract_file`, so the pipeline does run the directory-count
step; in a fresh output directory holding only the payload, the count-one
branch renames the payload onto its own name and returns exactly the payload
path. -/
theorem euclid_normalize_gz_fresh_dir (output_dir payload_name : String) :
    normalize PayloadKind.gz output_dir payload_name [payload_name]
      = [mkPath output_dir payload_name] := rfl

set_option maxRecDepth 40000 in
/-- C6: at the cone-search input of the claim (center 10.0, 20.0 degrees,
radius 0.05 degrees, row limit 5, no caller columns) the query built by
`cone_search` carries the circle predicate, the TOP 5 restriction and the
ascending ordering by the projected distance column, but the default empty
`columns` value is interpolated as the literal text of the empty tuple
instead of the star projection, because the column-normalization block is
commented out; the private `__cone_search` used by `query_object` does emit
the star projection for the same input. -/
theorem euclid_cone_search_columns_code_bug :
    substrB "CIRCLE(\x27ICRS\x27, 10.0, 20.0, 0.05)"
      (cone_search_query 5 PyColumns.defaultTuple "ra" "dec" "10.0" "20.0" "0.05"
        "catalogue.mer_catalogue") = true
    ∧ substrB "TOP 5"
      (cone_search_query 5 PyColumns.defaultTuple "ra" "dec" "10.0" "20.0" "0.05"
        "catalogue.mer_catalogue") = true
    ∧ substrB "ORDER BY\n                  dist ASC"
      (cone_search_query 5 PyColumns.defaultTuple "ra" "dec" "10.0" "20.0" "0.05"
        "catalogue.mer_catalogue") = true
    ∧ substrB "(),"
      (cone_search_query 5 PyColumns.defaultTuple "ra" "dec" "10.0" "20.0" "0.05"
        "catalogue.mer_catalogue") = true
    ∧ substrB "*"
      (cone_search_query 5 PyColumns.defaultTuple "ra" "dec" "10.0" "20.0" "0.05"
        "catalogue.mer_catalogue") = false
    ∧ substrB "*,"
      (private_cone_search_query 5 PyColumns.defaultTuple "ra" "dec" "10.0" "20.0" "0.05"
        "catalogue.mer_catalogue") = true := by
  refine ⟨?_, ?_, ?_, ?_, ?_, ?_⟩ <;> decide

/-- C7: `get_product_list` rejects requests setting both or neither of the
observation and tile identifiers with a `ValueError` and zero network calls
(whatever the product type); with exactly one identifier set and a recognized
product type the request proceeds and performs exactly one `launch_job`
network call. -/
theorem euclid_get_product_list_exclusivity (conf : EuclidConf) (o t pt : String) :
    get_product_list conf (some o) (some t) (some pt)
        = (Except.error ERROR_MSG_REQUESTED_OBSERVATION_ID_AND_TILE_ID, 0)
    ∧ get_product_list conf none none (some pt)
        = (Except.error
            (ERROR_MSG_REQUESTED_OBSERVATION_ID ++ "; " ++ ERROR_MSG_REQUESTED_TILE_ID), 0)
    ∧ (∀ pt2 : Option String, (get_product_list conf (some o) (some t) pt2).2 = 0
        ∧ (get_product_list conf none none pt2).2 = 0)
    ∧ (obsProductKnown conf pt →
        ∃ q, get_product_list conf (some o) none (some pt) = (Except.ok q, 1))
    ∧ (tileProductKnown conf pt →
        ∃ q, get_product_list conf none (some t) (some pt) = (Except.ok q, 1)) := by
  refine ⟨rfl, rfl, ?_, ?_, ?_⟩
  · intro pt2; cases pt2 <;> exact ⟨rfl, rfl⟩
  · intro h
    obtain ⟨q, hq⟩ := observation_query_chain_isSome conf o pt h
    exact ⟨q, by simp [get_product_list, hq]⟩
  · intro h
    obtain ⟨q, hq⟩ := tile_query_chain_isSome conf t pt h
    exact ⟨q, by simp [get_product_list, get_tile_catalogue_list, hq]⟩

/-- Witness for the C7 theorem at a concrete configuration, observation id
and stack product type. -/
theorem euclid_get_product_list_exclusivity_witness :
    obsProductKnown demoConf "DpdVisStackedFrame"
    ∧ (∃ q, get_product_list demoConf (some "13210") none (some "DpdVisStackedFrame")
        = (Except.ok q, 1))
    ∧ get_product_list demoConf (some "13210") (some "102018211") (some "DpdVisStackedFrame")
        = (Except.error ERROR_MSG_REQUESTED_OBSERVATION_ID_AND_TILE_ID, 0) := by
  have h := euclid_get_product_list_exclusivity demoConf "13210" "102018211" "DpdVisStackedFrame"
  exact ⟨Or.inl (by decide), h.2.2.2.1 (Or.inl (by decide)), h.1⟩

/-- C8: every cutout request whose radius converts to strictly more than 0.5
degrees fails with the radius validation error and performs zero `load_data`
network calls. -/
theorem euclid_get_cutout_radius_validation (fp ins i coord : String) (r : ℚ)
    (ra dec rs : String) (h : r > 1 / 2) :
    get_cutout (some fp) (some ins) (some i) (some coord) (some r) ra dec rs
      = (Except.error ERROR_MSG_REQUESTED_RADIUS, 0) := by
  simp only [get_cutout]
  rw [if_pos h]

/-- Witness for the C8 theorem at radius 0.6 degrees. -/
theorem euclid_get_cutout_radius_validation_witness :
    ((3 : ℚ) / 5 > 1 / 2)
    ∧ get_cutout (some "EUC_MER_BGSUB.fits") (some "VIS") (some "101")
        (some "10.0 20.0") (some ((3 : ℚ) / 5)) "10.0" "20.0" "0.6"
      = (Except.error ERROR_MSG_REQUESTED_RADIUS, 0) :=
  ⟨by norm_num,
   euclid_get_cutout_radius_validation "EUC_MER_BGSUB.fits" "VIS" "101" "10.0 20.0"
     ((3 : ℚ) / 5) "10.0" "20.0" "0.6" (by norm_num)⟩

/-- C9: a plain payload (not tar, not zip, not gzip-magic) normalizes to
exactly the one-element list holding its own path, whatever else the output
directory contains. -/
theorem euclid_normalize_plain_file (output_dir payload_name : String)
    (dirListing : List String) :
    normalize PayloadKind.plain output_dir payload_name dirListing
      = [mkPath output_dir payload_name] := rfl

/-- C10: `__handle_http_error` returns a message on every path, so the
`message is None` fallback branch of the `launch_job` error handler is
unreachable: the logged line always embeds the classified message. -/
theorem euclid_handle_http_error_total (code responseStatus : Option String)
    (errStr query : String) :
    ∃ m, handle_http_error code responseStatus errStr = some m
      ∧ launch_job_error_log query code responseStatus errStr
          = "Query failed: " ++ query ++ ": \n " ++ m :=
  ⟨_, rfl, rfl⟩

end EuclidSpec
